import Mathlib

/-!
Shallow embedding of `Main.py` (the Speakeasy backend): configuration-free
request handlers that bridge a telephony provider (Twilio), a text-generation
provider (OpenAI) and a document store (Firestore).  External services are
modelled as explicit state: each client structure carries the list of requests
issued so far together with a scripted outcome for the next call, and every
handler is a pure function threading that state.  Exceptions raised by an
external call are modelled by their textual message (`str(e)` in the source).
-/

namespace Speakeasy

/-- A TwiML verb as appended by the twilio `VoiceResponse` builder used in
`Main.py`: `response.say(text, voice=..., language=...)` and
`response.listen()`. -/
inductive Verb : Type
  | say (text : String) (voice : String) (language : String)
  | listen
deriving DecidableEq, Repr

/-- The twilio `VoiceResponse` builder object: an ordered list of verbs. -/
structure VoiceResponse : Type where
  verbs : List Verb
deriving DecidableEq, Repr

/-- Construction `VoiceResponse()` (an empty document). -/
def VoiceResponse.empty : VoiceResponse := ⟨[]⟩

/-- Method call `response.say(text, voice=v, language=l)` appends a Say verb. -/
def VoiceResponse.say (r : VoiceResponse) (text : String) (voice : String)
    (language : String) : VoiceResponse :=
  ⟨r.verbs ++ [Verb.say text voice language]⟩

/-- Method call `response.listen()` appends a listen verb. -/
def VoiceResponse.listen (r : VoiceResponse) : VoiceResponse :=
  ⟨r.verbs ++ [Verb.listen]⟩

/-- Serialization of one verb into markup text, modelling the twilio
library's rendering of a verb. -/
def Verb.render : Verb → String
  | Verb.say text voice language =>
      "<Say voice=\"" ++ voice ++ "\" language=\"" ++ language ++ "\">"
        ++ text ++ "</Say>"
  | Verb.listen => "<Listen/>"

/-- Serialization `str(response)` of the whole document. -/
def VoiceResponse.render (r : VoiceResponse) : String :=
  "<?xml version=\"1.0\" encoding=\"UTF-8\"?><Response>"
    ++ String.join (r.verbs.map Verb.render) ++ "</Response>"

/-- The keyword arguments of `twilio_client.calls.create(to=..., from_=...,
twiml=...)` in `make_call` (lines 67-71); the field `to_` models the `to=`
keyword argument (`to` is reserved in Lean). -/
structure CallParams : Type where
  to_ : String
  from_ : String
  twiml : String
deriving DecidableEq, Repr

/-- Model of the external telephony client handle `twilio_client`:
`calls_created` is the log of outbound-call requests it has been asked to
place, and `outcome` scripts what the next `calls.create` does — return a
call object carrying a session id `sid`, or raise an exception with the
given textual message. -/
structure TwilioClient : Type where
  calls_created : List CallParams
  outcome : Except String String
deriving Repr

/-- Method call `twilio_client.calls.create(...)`: the request is issued (so
it is appended to the log) and the scripted outcome is produced. -/
def TwilioClient.calls_create (c : TwilioClient) (p : CallParams) :
    TwilioClient × Except String String :=
  ({ c with calls_created := c.calls_created ++ [p] }, c.outcome)

/-- Request model `CallRequest` (lines 37-39). -/
structure CallRequest : Type where
  phone_number : String
  message : String
deriving DecidableEq, Repr

/-- Request model `AppointmentRequest` (lines 41-44). -/
structure AppointmentRequest : Type where
  client_name : String
  doctor_name : String
  time : String
deriving DecidableEq, Repr

/-- The document inserted into the appointments collection (lines 82-86). -/
structure AppointmentDoc : Type where
  client_name : String
  doctor_name : String
  time : String
deriving DecidableEq, Repr

/-- Model of the external document store handle `db` restricted to the
appointments collection: the records persisted so far, keyed by their
store-generated identifier; `freshId` is the identifier the store will
assign to the next inserted record; `failure` scripts whether the next
insert raises (with the given exception text) instead of succeeding. -/
structure DocumentStore : Type where
  appointments : List (String × AppointmentDoc)
  freshId : String
  failure : Option String
deriving Repr

/-- Method call `db.collection("appointments").add(doc)`: on success the
record is appended under a store-generated id and that id is returned
(the source reads it back as `doc_ref[1].id`); on failure the exception
text is raised and the collection is unchanged. -/
def DocumentStore.add (s : DocumentStore) (doc : AppointmentDoc) :
    Except String (DocumentStore × String) :=
  match s.failure with
  | some e => Except.error e
  | none =>
      Except.ok
        ({ s with appointments := s.appointments ++ [(s.freshId, doc)] },
          s.freshId)

/-- One message of a chat completion request (line 99). -/
structure ChatMessage : Type where
  role : String
  content : String
deriving DecidableEq, Repr

/-- The chat completion request submitted by `openai.ChatCompletion.create`
(lines 97-100). -/
structure ChatRequest : Type where
  model : String
  messages : List ChatMessage
deriving DecidableEq, Repr

/-- One element of `completion['choices']`, carrying a `message`. -/
structure Choice : Type where
  message : ChatMessage
deriving DecidableEq, Repr

/-- The completion object returned by the text-generation provider. -/
structure Completion : Type where
  choices : List Choice
deriving DecidableEq, Repr

/-- Model of the external text-generation client: `requests` is the log of
chat completion requests submitted so far, and `outcome` scripts what the
next `ChatCompletion.create` does — return a completion object, or raise
an exception with the given textual message. -/
structure OpenAIClient : Type where
  requests : List ChatRequest
  outcome : Except String Completion
deriving Repr

/-- Method call `openai.ChatCompletion.create(model=..., messages=...)`: the
request is submitted (appended to the log) and the scripted outcome is
produced. -/
def OpenAIClient.chatCompletion_create (c : OpenAIClient) (req : ChatRequest) :
    OpenAIClient × Except String Completion :=
  ({ c with requests := c.requests ++ [req] }, c.outcome)

/-- An `HTTPException(status_code=..., detail=...)` raised by a handler. -/
structure HTTPException : Type where
  status_code : Nat
  detail : String
deriving DecidableEq, Repr

/-- Success body of `POST /call` (line 72). -/
structure MakeCallResponse : Type where
  status : String
  sid : String
deriving DecidableEq, Repr

/-- Success body of `POST /appointment` (line 87). -/
structure AppointmentResponse : Type where
  status : String
  appointment_id : String
deriving DecidableEq, Repr

/-- Body of `GET /` (line 53). -/
structure HealthResponse : Type where
  message : String
deriving DecidableEq, Repr

/-- A `PlainTextResponse(body, media_type=...)` as returned on line 121. -/
structure PlainTextResponse : Type where
  body : String
  media_type : String
deriving DecidableEq, Repr

/-- A form-encoded request body: an association list of field names to
values, as obtained from `await request.form()`. -/
abbrev Form : Type := List (String × String)

/-- Dictionary access `form.get(key, dflt)`: the value bound to `key`, or
`dflt` when the field is absent. -/
def Form.get (form : Form) (key : String) (dflt : String) : String :=
  match List.lookup key form with
  | some v => v
  | none => dflt

/-- Handler of `GET /` (lines 48-53): the health check returns a fixed body.
It is defined without reference to any of the three external client states,
so its result cannot depend on them. -/
def root : HealthResponse :=
  { message := "Speakeasy running" }

/-- Handler of `POST /call` (lines 55-74), threading the telephony client
state.  It builds a voice-markup document whose sole instruction speaks
`request.message`, asks the provider to place one outbound call carrying
that markup, and returns the initiated status with the provider's session
id; any exception from the provider call is caught and re-raised as an
`HTTPException` with status 500 and the exception text as detail. -/
def make_call (twilio_client : TwilioClient) (TWILIO_PHONE_NUMBER : String)
    (request : CallRequest) :
    Except HTTPException MakeCallResponse × TwilioClient :=
  let response := VoiceResponse.say VoiceResponse.empty request.message
    "alice" "en-US"
  let step := twilio_client.calls_create
    { to_ := request.phone_number, from_ := TWILIO_PHONE_NUMBER,
      twiml := response.render }
  match step.2 with
  | Except.ok sid =>
      (Except.ok { status := "initiated", sid := sid }, step.1)
  | Except.error e =>
      (Except.error { status_code := 500, detail := e }, step.1)

/-- Handler of `POST /appointment` (lines 76-89), threading the document
store state.  It inserts the three submitted fields unmodified as one new
record and returns the success status with the store-generated identifier;
any store exception is caught and re-raised as an `HTTPException` with
status 500 and the exception text as detail. -/
def create_appointment (db : DocumentStore) (request : AppointmentRequest) :
    Except HTTPException AppointmentResponse × DocumentStore :=
  match db.add
      { client_name := request.client_name,
        doctor_name := request.doctor_name,
        time := request.time } with
  | Except.ok (db', id) =>
      (Except.ok { status := "success", appointment_id := id }, db')
  | Except.error e =>
      (Except.error { status_code := 500, detail := e }, db)

/-- The chat completion request constructed by `handle_conversation`
(lines 97-100): the given model and exactly one user-role message carrying
the prompt. -/
def conversationRequest (prompt : String) (model : String) : ChatRequest :=
  { model := model, messages := [{ role := "user", content := prompt }] }

/-- The conversation helper `handle_conversation` (lines 92-103), threading
the text-generation client state.  In the source `model` has default value
"gpt-3.5-turbo"; here it is passed explicitly at the call site.  On success
the first choice's message content is returned; reading `choices[0]` of an
empty choice list raises an IndexError inside the `try`, which the handler's
`except` converts like any other exception; a raised exception `e` becomes
the returned string "Error: " followed by `str(e)`.  The helper always
returns a string and never raises. -/
def handle_conversation (openai_client : OpenAIClient) (prompt : String)
    (model : String) : String × OpenAIClient :=
  let step := openai_client.chatCompletion_create
    (conversationRequest prompt model)
  match step.2 with
  | Except.ok completion =>
      match completion.choices with
      | choice :: _ => (choice.message.content, step.1)
      | [] => ("Error: list index out of range", step.1)
  | Except.error e => ("Error: " ++ e, step.1)

/-- Handler of `POST /twilio/voice` (lines 106-121), threading the
text-generation client state.  It reads the `SpeechResult` form field with
default ""; a non-empty value is forwarded to the conversation helper and
the helper's returned string is used verbatim as the reply, otherwise a
fixed greeting is used; the response speaks the reply, then opens a
listening turn, and is returned with content type application/xml. -/
def twilio_voice (openai_client : OpenAIClient) (form : Form) :
    PlainTextResponse × OpenAIClient :=
  let speech_result := Form.get form "SpeechResult" ""
  let step :=
    if speech_result ≠ "" then
      handle_conversation openai_client speech_result "gpt-3.5-turbo"
    else
      ("Hello, welcome to Speakeasy. How may I assist you?", openai_client)
  let response := VoiceResponse.listen
    (VoiceResponse.say VoiceResponse.empty step.1 "alice" "en-US")
  ({ body := response.render, media_type := "application/xml" }, step.2)

/-- Sample choice for witnesses. -/
def sampleChoice : Choice :=
  { message := { role := "assistant", content := "Sure, I can help." } }

/-- Sample completion for witnesses. -/
def sampleCompletion : Completion := { choices := [sampleChoice] }

/-- Sample text-generation client whose next call succeeds. -/
def sampleOpenAIOk : OpenAIClient :=
  { requests := [], outcome := Except.ok sampleCompletion }

/-- Sample text-generation client whose next call raises. -/
def sampleOpenAIErr : OpenAIClient :=
  { requests := [], outcome := Except.error "connection reset" }

/-- Sample telephony client whose next call succeeds. -/
def sampleTwilioOk : TwilioClient :=
  { calls_created := [], outcome := Except.ok "CA123" }

/-- Sample telephony client whose next call raises. -/
def sampleTwilioErr : TwilioClient :=
  { calls_created := [], outcome := Except.error "auth failure" }

/-- Sample document store whose next insert succeeds. -/
def sampleStoreOk : DocumentStore :=
  { appointments := [], freshId := "doc-001", failure := none }

/-- Sample document store whose next insert raises. -/
def sampleStoreErr : DocumentStore :=
  { appointments := [], freshId := "doc-001", failure := some "quota exceeded" }

/-- Sample call request for witnesses. -/
def sampleCall : CallRequest :=
  { phone_number := "+15551234567", message := "Your appointment is confirmed" }

/-- Sample appointment request for witnesses. -/
def sampleAppointment : AppointmentRequest :=
  { client_name := "Alice", doctor_name := "Dr. Bob",
    time := "2025-10-16T10:30:00Z" }

/-- Helper: whatever the provider outcome, `handle_conversation` submits
exactly one chat completion request, namely `conversationRequest prompt
model`, so the client log grows by that one request. -/
theorem handle_conversation_requests (c : OpenAIClient)
    (prompt model : String) :
    (handle_conversation c prompt model).2
      = { c with requests := c.requests ++ [conversationRequest prompt model] } := by
  cases h : c.outcome with
  | ok completion =>
      cases hc : completion.choices <;>
        simp [handle_conversation, OpenAIClient.chatCompletion_create, h, hc]
  | error e =>
      simp [handle_conversation, OpenAIClient.chatCompletion_create, h]

/-- C9: GET / returns exactly the body with message "Speakeasy running".
The handler `root` is a closed constant defined without reference to the
telephony, text-generation or document-store client states, so its result
is independent of any external service's availability. -/
theorem root_health_check : root = { message := "Speakeasy running" } := rfl

/-- C2: for every prompt, if the text-generation call raises an exception
whose text is e, `handle_conversation` returns the plain string "Error: "
followed by e rather than propagating the exception; by its return type
the helper always yields a string, so success and failure are
distinguishable only by inspecting the string. -/
theorem handle_conversation_swallows_errors (c : OpenAIClient)
    (prompt model e : String) (h : c.outcome = Except.error e) :
    (handle_conversation c prompt model).1 = "Error: " ++ e := by
  simp [handle_conversation, OpenAIClient.chatCompletion_create, h]

/-- Witness for C2 at a concrete failing client. -/
theorem handle_conversation_swallows_errors_witness :
    (handle_conversation sampleOpenAIErr "book an appointment"
        "gpt-3.5-turbo").1
      = "Error: " ++ "connection reset" :=
  handle_conversation_swallows_errors sampleOpenAIErr "book an appointment"
    "gpt-3.5-turbo" "connection reset" rfl

/-- C6: `handle_conversation` submits a single chat completion request whose
message list is exactly one user-role message carrying the prompt (no
history), and on a successful outcome whose choice list is nonempty it
returns the first choice's message content. -/
theorem handle_conversation_single_turn (c : OpenAIClient)
    (prompt model : String) (completion : Completion) (choice : Choice)
    (rest : List Choice) (hout : c.outcome = Except.ok completion)
    (hch : completion.choices = choice :: rest) :
    (conversationRequest prompt model).messages
        = [{ role := "user", content := prompt }]
      ∧ (handle_conversation c prompt model).2.requests
        = c.requests ++ [conversationRequest prompt model]
      ∧ (handle_conversation c prompt model).1 = choice.message.content := by
  refine ⟨rfl, ?_, ?_⟩
  · rw [handle_conversation_requests]
  · simp [handle_conversation, OpenAIClient.chatCompletion_create, hout, hch]

/-- Witness for C6 at a concrete succeeding client. -/
theorem handle_conversation_single_turn_witness :
    (conversationRequest "book an appointment" "gpt-3.5-turbo").messages
        = [{ role := "user", content := "book an appointment" }]
      ∧ (handle_conversation sampleOpenAIOk "book an appointment"
            "gpt-3.5-turbo").2.requests
        = sampleOpenAIOk.requests
          ++ [conversationRequest "book an appointment" "gpt-3.5-turbo"]
      ∧ (handle_conversation sampleOpenAIOk "book an appointment"
            "gpt-3.5-turbo").1 = sampleChoice.message.content :=
  handle_conversation_single_turn sampleOpenAIOk "book an appointment"
    "gpt-3.5-turbo" sampleCompletion sampleChoice [] rfl rfl

/-- C4: on provider success, POST /call issues exactly one outbound call
request, to the request's phone number from the configured origin number,
carrying a markup document whose sole instruction speaks the request's
message, and returns status "initiated" with the provider's session id. -/
theorem make_call_success (c : TwilioClient) (origin : String)
    (request : CallRequest) (sid : String) (h : c.outcome = Except.ok sid) :
    (make_call c origin request).1
        = Except.ok { status := "initiated", sid := sid }
      ∧ (make_call c origin request).2.calls_created
        = c.calls_created
          ++ [{ to_ := request.phone_number, from_ := origin,
                twiml := VoiceResponse.render
                  ⟨[Verb.say request.message "alice" "en-US"]⟩ }] := by
  constructor <;>
    simp [make_call, TwilioClient.calls_create, h, VoiceResponse.say,
      VoiceResponse.empty]

/-- Witness for C4 at a concrete succeeding provider. -/
theorem make_call_success_witness :
    (make_call sampleTwilioOk "+15559990000" sampleCall).1
        = Except.ok { status := "initiated", sid := "CA123" }
      ∧ (make_call sampleTwilioOk "+15559990000" sampleCall).2.calls_created
        = sampleTwilioOk.calls_created
          ++ [{ to_ := sampleCall.phone_number, from_ := "+15559990000",
                twiml := VoiceResponse.render
                  ⟨[Verb.say sampleCall.message "alice" "en-US"]⟩ }] :=
  make_call_success sampleTwilioOk "+15559990000" sampleCall "CA123" rfl

/-- C7: if the provider call raises an exception whose text is e, POST /call
responds with an HTTPException of status 500 whose detail is exactly e,
uniformly for every exception. -/
theorem make_call_provider_failure (c : TwilioClient) (origin : String)
    (request : CallRequest) (e : String) (h : c.outcome = Except.error e) :
    (make_call c origin request).1
      = Except.error { status_code := 500, detail := e } := by
  simp [make_call, TwilioClient.calls_create, h]

/-- Witness for C7 at a concrete failing provider. -/
theorem make_call_provider_failure_witness :
    (make_call sampleTwilioErr "+15559990000" sampleCall).1
      = Except.error { status_code := 500, detail := "auth failure" } :=
  make_call_provider_failure sampleTwilioErr "+15559990000" sampleCall
    "auth failure" rfl

/-- C3: on store success, POST /appointment appends exactly one new record
carrying the three submitted fields unmodified (the time string stored
byte-for-byte), and returns status "success" with the store-generated
identifier of that record. -/
theorem create_appointment_success (db : DocumentStore)
    (request : AppointmentRequest) (h : db.failure = none) :
    (create_appointment db request).1
        = Except.ok { status := "success", appointment_id := db.freshId }
      ∧ (create_appointment db request).2.appointments
        = db.appointments
          ++ [(db.freshId,
                { client_name := request.client_name,
                  doctor_name := request.doctor_name,
                  time := request.time })] := by
  constructor <;> simp [create_appointment, DocumentStore.add, h]

/-- Witness for C3 at a concrete succeeding store, with the time string of
the spec's example. -/
theorem create_appointment_success_witness :
    (create_appointment sampleStoreOk sampleAppointment).1
        = Except.ok
            { status := "success",
              appointment_id := sampleStoreOk.freshId }
      ∧ (create_appointment sampleStoreOk sampleAppointment).2.appointments
        = sampleStoreOk.appointments
          ++ [(sampleStoreOk.freshId,
                { client_name := sampleAppointment.client_name,
                  doctor_name := sampleAppointment.doctor_name,
                  time := sampleAppointment.time })] :=
  create_appointment_success sampleStoreOk sampleAppointment rfl

/-- C8: if the store insert raises an exception whose text is e, POST
/appointment responds with an HTTPException of status 500 whose detail is
exactly e. -/
theorem create_appointment_store_failure (db : DocumentStore)
    (request : AppointmentRequest) (e : String)
    (h : db.failure = some e) :
    (create_appointment db request).1
      = Except.error { status_code := 500, detail := e } := by
  simp [create_appointment, DocumentStore.add, h]

/-- Witness for C8 at a concrete failing store. -/
theorem create_appointment_store_failure_witness :
    (create_appointment sampleStoreErr sampleAppointment).1
      = Except.error { status_code := 500, detail := "quota exceeded" } :=
  create_appointment_store_failure sampleStoreErr sampleAppointment
    "quota exceeded" rfl

/-- C1: the webhook's spoken reply is the conversation helper's returned
string verbatim when the SpeechResult field is present and non-empty (and
exactly that string is forwarded to the helper, growing its request log by
one single-turn request), and is exactly the fixed greeting when the field
is absent or empty (in which case no helper request is made). -/
theorem twilio_voice_reply_selection (c : OpenAIClient) (form : Form) :
    (twilio_voice c form).1.body
        = VoiceResponse.render
            ⟨[Verb.say
                (if Form.get form "SpeechResult" "" ≠ "" then
                  (handle_conversation c (Form.get form "SpeechResult" "")
                    "gpt-3.5-turbo").1
                else "Hello, welcome to Speakeasy. How may I assist you?")
                "alice" "en-US", Verb.listen]⟩
      ∧ (twilio_voice c form).2
        = (if Form.get form "SpeechResult" "" ≠ "" then
            { c with requests := c.requests
                ++ [conversationRequest (Form.get form "SpeechResult" "")
                      "gpt-3.5-turbo"] }
          else c) := by
  by_cases h : Form.get form "SpeechResult" "" = ""
  · constructor <;>
      simp [twilio_voice, h, VoiceResponse.say, VoiceResponse.listen,
        VoiceResponse.empty]
  · constructor
    · simp [twilio_voice, h, VoiceResponse.say, VoiceResponse.listen,
        VoiceResponse.empty]
    · simp [twilio_voice, h, handle_conversation_requests]

/-- C5: the webhook's response body is the rendered markup document whose
verbs are exactly a Say of the chosen reply followed by a listen verb, and
the response carries content type application/xml. -/
theorem twilio_voice_markup_shape (c : OpenAIClient) (form : Form) :
    (twilio_voice c form).1.body
        = VoiceResponse.render
            ⟨[Verb.say
                (if Form.get form "SpeechResult" "" ≠ "" then
                  (handle_conversation c (Form.get form "SpeechResult" "")
                    "gpt-3.5-turbo").1
                else "Hello, welcome to Speakeasy. How may I assist you?")
                "alice" "en-US", Verb.listen]⟩
      ∧ (twilio_voice c form).1.media_type = "application/xml" := by
  constructor
  · by_cases h : Form.get form "SpeechResult" "" = "" <;>
      simp [twilio_voice, h, VoiceResponse.say, VoiceResponse.listen,
        VoiceResponse.empty]
  · rfl

/-- C10: two webhook requests whose forms agree on the SpeechResult field
(both via the defaulted lookup, so absent and empty coincide) produce
identical responses given the same conversation-helper state: no other
form field influences the output. -/
theorem twilio_voice_noninterference (c : OpenAIClient) (form1 form2 : Form)
    (h : Form.get form1 "SpeechResult" "" = Form.get form2 "SpeechResult" "") :
    (twilio_voice c form1).1 = (twilio_voice c form2).1 := by
  simp only [twilio_voice, h]

/-- Witness for C10 at two concrete forms differing in their other fields. -/
theorem twilio_voice_noninterference_witness :
    (twilio_voice sampleOpenAIOk
        [("CallSid", "CA1"), ("SpeechResult", "book an appointment")]).1
      = (twilio_voice sampleOpenAIOk
        [("SpeechResult", "book an appointment"), ("From", "+15550000000")]).1 :=
  twilio_voice_noninterference sampleOpenAIOk
    [("CallSid", "CA1"), ("SpeechResult", "book an appointment")]
    [("SpeechResult", "book an appointment"), ("From", "+15550000000")]
    (by decide)

end Speakeasy
